import Mathlib

/-!
Shallow embedding of pkg/services/live/survey/survey.go (grafana live survey
coordination layer): wire protocol types, the survey dispatcher, the
leader-fenced subscribe handler and the two outbound callers.

Collaborators (leader manager, bus, channel handler getter, managed stream
runner) are modelled as oracle functions carried in the Caller structure.
Handler functions additionally return a trace of collaborator invocations so
that non-invocation properties can be stated. JSON (un)marshalling is modelled
shallowly by a Payload sum type: a well-formed encoding of a value is the
matching constructor, anything else fails to decode. Go map iteration over
survey results is modelled by an explicit list in iteration order. The
float64 per-minute rate is modelled as a rational number; the operations the
code performs on it (addition, record copy) are exact on the values involved.
-/

deriving instance DecidableEq for Except

namespace Survey

/-- Modelled from the spec: ManagedChannel from the managed-stream tracker
collaborator, a channel name together with its per-minute message rate. -/
structure ManagedChannel where
  channel : String
  minuteRate : Rat
deriving DecidableEq, Repr

/-- Modelled from the spec: the subscribe reply payload produced by the
channel handler collaborator; this core passes it through opaquely. -/
structure SubscribeReply where
  raw : String := ""
deriving DecidableEq, Repr

/-- Modelled from the spec: the subscribe status returned by the channel
handler collaborator (an integer status in the plugin SDK). -/
abbrev SubscribeStreamStatus := Int

/-- Modelled from the spec: the identity object. The handler only ever reads
or sets the organization ID and the user ID. -/
structure SignedInUser where
  orgId : Int := 0
  userId : Int := 0
deriving DecidableEq, Repr

/-- Modelled from the spec: the parsed channel structure returned by the
channel-handler-getter collaborator; the handler only uses its path. -/
structure LiveChannel where
  scope : String := ""
  nsp : String := ""
  path : String := ""
deriving DecidableEq, Repr

/-- Subscribe event passed to the channel handler (channel name, parsed path,
leadership fencing token). -/
structure SubscribeEvent where
  channel : String
  path : String
  leadershipID : String
deriving DecidableEq, Repr

/-- Modelled from the spec: the channel handler collaborator; only its
OnSubscribe callback is used by this core. -/
structure ChannelHandler where
  onSubscribe : SignedInUser → SubscribeEvent → Except String (SubscribeReply × SubscribeStreamStatus)

structure NodeManagedChannelsRequest where
  orgID : Int
deriving DecidableEq, Repr

structure NodeManagedChannelsResponse where
  channels : List ManagedChannel
deriving DecidableEq, Repr

structure PluginSubscribeStreamRequest where
  orgID : Int
  userID : Int
  channel : String
  leaderNodeID : String
  leadershipID : String
deriving DecidableEq, Repr

structure PluginSubscribeStreamResponse where
  status : SubscribeStreamStatus := 0
  reply : SubscribeReply := {}
deriving DecidableEq, Repr

/-- Shallow model of JSON payload bytes: a well-formed encoding of a value is
the constructor carrying it; malformed stands for any bytes that decode into
none of the protocol types. -/
inductive Payload where
  | managedReq (req : NodeManagedChannelsRequest)
  | subscribeReq (req : PluginSubscribeStreamRequest)
  | managedResp (resp : NodeManagedChannelsResponse)
  | subscribeResp (resp : PluginSubscribeStreamResponse)
  | malformed
deriving DecidableEq, Repr

/-- Survey reply envelope: status code (0 means success) and payload bytes
(none models a nil payload). -/
structure SurveyReply where
  code : Nat
  data : Option Payload := none
deriving DecidableEq, Repr

/-- Trace of collaborator invocations performed by the receiving handlers. -/
inductive Effect where
  | getLeader (key : String)
  | getSignedInUser (userId : Int) (orgId : Int)
  | getChannelHandler (user : SignedInUser) (channel : String)
  | onSubscribe (user : SignedInUser) (event : SubscribeEvent)
deriving DecidableEq, Repr

/-- The Caller with its collaborators modelled as oracle functions. -/
structure Caller where
  nodeID : String
  getLeader : String → Except String (Bool × String × String)
  getSignedInUser : Int → Int → Except String SignedInUser
  getChannelHandler : SignedInUser → String → Except String (ChannelHandler × LiveChannel)
  getManagedChannels : Int → Except String (List ManagedChannel)

def managedStreamsCall : String := "managed_streams"

def pluginSubscribeStream : String := "plugin_subscribe_stream"

/-- Modelled from the spec: the org-scoping channel-namespacing convention
(orgchannel.PrependOrgID), opaque to this core. -/
def prependOrgID (orgID : Int) (channel : String) : String :=
  toString orgID ++ "/" ++ channel

def decodeManagedResp : Option Payload → Except String NodeManagedChannelsResponse
  | some (.managedResp resp) => .ok resp
  | _ => .error "json unmarshal error"

def decodeSubscribeResp : Option Payload → Except String PluginSubscribeStreamResponse
  | some (.subscribeResp resp) => .ok resp
  | _ => .error "json unmarshal error"

/-- Receiving handler for the managed-streams operation: decode the request,
ask the local managed-stream tracker, and wrap its list unmodified. -/
def handleManagedStreams (c : Caller) (data : Payload) :
    Except String NodeManagedChannelsResponse :=
  match data with
  | .managedReq req =>
    match c.getManagedChannels req.orgID with
    | .error e => .error e
    | .ok channels => .ok { channels := channels }
  | _ => .error "json unmarshal error"

/-- Subscribe event built from the request channel, the parsed channel path
and the leadership token carried in the request. -/
def subscribeEventOf (req : PluginSubscribeStreamRequest) (parsedChannel : LiveChannel) :
    SubscribeEvent :=
  { channel := req.channel, path := parsedChannel.path, leadershipID := req.leadershipID }

/-- Identity is resolved; resolve the channel handler and perform the
subscribe side effect (steps 4 and 5 of the fenced handler). -/
def resolveAndSubscribe (c : Caller) (req : PluginSubscribeStreamRequest)
    (effs : List Effect) (user : SignedInUser) :
    Except String PluginSubscribeStreamResponse × List Effect :=
  match c.getChannelHandler user req.channel with
  | .error e => (.error e, effs ++ [.getChannelHandler user req.channel])
  | .ok (handler, parsedChannel) =>
    let ev : SubscribeEvent := subscribeEventOf req parsedChannel
    match handler.onSubscribe user ev with
    | .error e =>
      (.error e, effs ++ [.getChannelHandler user req.channel, .onSubscribe user ev])
    | .ok (reply, status) =>
      (.ok { status := status, reply := reply },
        effs ++ [.getChannelHandler user req.channel, .onSubscribe user ev])

/-- Receiving handler for the plugin-subscribe-stream operation: decode,
self-check, leadership re-validation (fencing), identity resolution, then
channel resolution and the subscribe side effect. -/
def handlePluginSubscribeStream (c : Caller) (data : Payload) :
    Except String PluginSubscribeStreamResponse × List Effect :=
  match data with
  | .subscribeReq req =>
    if req.leaderNodeID ≠ c.nodeID then
      (.ok {}, [])
    else
      let key := prependOrgID req.orgID req.channel
      match c.getLeader key with
      | .error _ => (.error "error checking leader", [.getLeader key])
      | .ok (ok, _, currentLeadershipID) =>
        if ok = false ∨ currentLeadershipID ≠ req.leadershipID then
          (.error "leader changed", [.getLeader key])
        else if req.userID > 0 then
          match c.getSignedInUser req.userID req.orgID with
          | .error _ =>
            (.error "error getting signed in user",
              [.getLeader key, .getSignedInUser req.userID req.orgID])
          | .ok user =>
            resolveAndSubscribe c req
              [.getLeader key, .getSignedInUser req.userID req.orgID] user
        else
          resolveAndSubscribe c req [.getLeader key]
            { orgId := req.orgID, userId := 0 }
  | _ => (.error "json unmarshal error", [])

/-- Dispatch phase of the survey handler: look the operation name up in the
closed dispatch table, invoke the matching handler and encode its result. -/
def surveyResult (c : Caller) (op : String) (data : Payload) : Except String Payload :=
  if op = managedStreamsCall then
    match handleManagedStreams c data with
    | .error e => .error e
    | .ok resp => .ok (.managedResp resp)
  else if op = pluginSubscribeStream then
    match (handlePluginSubscribeStream c data).1 with
    | .error e => .error e
    | .ok resp => .ok (.subscribeResp resp)
  else .error "method not found"

/-- Survey dispatcher: every error collapses to code 1 with an empty payload
(the error itself is only logged locally); success is code 0 carrying the
encoded result. -/
def handleSurvey (c : Caller) (op : String) (data : Payload) : SurveyReply :=
  match surveyResult c op data with
  | .error _ => { code := 1, data := none }
  | .ok payload => { code := 0, data := some payload }

/-- Outbound targeted leader call, modelled from the point where the survey
transport has produced its per-node reply map; the list carries the replies
in iteration order, keyed by node ID. -/
def callPluginSubscribeStream (leaderNodeID : String) :
    List (String × SurveyReply) → Except String (SubscribeReply × SubscribeStreamStatus)
  | [] => .error "leader node not responded"
  | (nodeID, result) :: rest =>
    if result.code ≠ 0 then
      .error ("unexpected survey code: " ++ toString result.code)
    else if nodeID ≠ leaderNodeID then
      callPluginSubscribeStream leaderNodeID rest
    else
      match decodeSubscribeResp result.data with
      | .error e => .error e
      | .ok res => .ok (res.reply, res.status)

/-- One step of the broadcast merge: first occurrence of a channel name is
inserted as-is; a later occurrence sums its rate into the existing entry,
except under the plugin-testdata namespace where it is dropped. -/
def addChannel (acc : List ManagedChannel) (ch : ManagedChannel) : List ManagedChannel :=
  if acc.any (fun e => e.channel = ch.channel) then
    if ch.channel.startsWith "plugin/testdata/" then
      acc
    else
      acc.map (fun e =>
        if e.channel = ch.channel then
          { e with minuteRate := e.minuteRate + ch.minuteRate }
        else e)
  else
    acc ++ [ch]

def insertByChannel (ch : ManagedChannel) : List ManagedChannel → List ManagedChannel
  | [] => [ch]
  | e :: rest =>
    if ch.channel < e.channel then ch :: e :: rest
    else e :: insertByChannel ch rest

/-- Sort the merged entries lexicographically by channel name (the final
sort.Slice of CallManagedStreams). -/
def sortByChannel (l : List ManagedChannel) : List ManagedChannel :=
  l.foldr insertByChannel []

/-- Loop body of CallManagedStreams over the per-node replies: a non-zero
code or a decode failure aborts, otherwise the node channels are merged. -/
def collectChannels : List SurveyReply → List ManagedChannel →
    Except String (List ManagedChannel)
  | [], acc => .ok acc
  | result :: rest, acc =>
    if result.code ≠ 0 then
      .error ("unexpected survey code: " ++ toString result.code)
    else
      match decodeManagedResp result.data with
      | .error e => .error e
      | .ok res => collectChannels rest (res.channels.foldl addChannel acc)

/-- Outbound broadcast aggregation call, modelled from the point where the
survey transport has produced its replies (in iteration order; the node keys
are not used by the code). -/
def callManagedStreams (resp : List SurveyReply) : Except String (List ManagedChannel) :=
  match collectChannels resp [] with
  | .error e => .error e
  | .ok channels => .ok (sortByChannel channels)

/-- Concrete channel handler used by the witnesses. -/
def exampleHandler : ChannelHandler :=
  { onSubscribe := fun _ _ => .ok ({ raw := "sub-ok" }, 1) }

/-- Concrete caller used by the witnesses: node-1 currently leads with the
leadership token token-1. -/
def exampleCaller : Caller :=
  { nodeID := "node-1"
    getLeader := fun _ => .ok (true, "node-1", "token-1")
    getSignedInUser := fun uid oid => .ok { orgId := oid, userId := uid }
    getChannelHandler := fun _ _ =>
      .ok (exampleHandler, { scope := "stream", nsp := "x", path := "a" })
    getManagedChannels := fun _ => .ok [⟨"x/a", 1⟩] }

/-- C2: a SubscribeQuery whose target leader node ID differs from the node
own ID yields an empty success answer at once and invokes no collaborator:
neither the leader manager, nor the identity lookup, nor the channel
handler. -/
theorem claim2_non_leader_empty_answer (c : Caller) (req : PluginSubscribeStreamRequest)
    (h : req.leaderNodeID ≠ c.nodeID) :
    handlePluginSubscribeStream c (.subscribeReq req) =
      (.ok { status := 0, reply := {} }, []) := by
  simp [handlePluginSubscribeStream, h]

/-- Witness for C2 at a concrete misaddressed request. -/
theorem claim2_non_leader_empty_answer_witness :
    handlePluginSubscribeStream exampleCaller
        (.subscribeReq { orgID := 1, userID := 0, channel := "stream/x/a",
                         leaderNodeID := "node-2", leadershipID := "token-1" }) =
      (.ok { status := 0, reply := {} }, []) :=
  claim2_non_leader_empty_answer exampleCaller _ (by decide)

/-- C9: the local managed-channels handler returns exactly the list produced
by the managed-stream tracker for the organization, unchanged and in order,
and propagates a tracker error unchanged. -/
theorem claim9_managed_streams_exact (c : Caller) (req : NodeManagedChannelsRequest) :
    (∀ chans, c.getManagedChannels req.orgID = .ok chans →
      handleManagedStreams c (.managedReq req) = .ok { channels := chans }) ∧
    (∀ e, c.getManagedChannels req.orgID = .error e →
      handleManagedStreams c (.managedReq req) = .error e) := by
  constructor <;> intro x h <;> simp [handleManagedStreams, h]

/-- Witness for C9 at the concrete example caller. -/
theorem claim9_managed_streams_exact_witness :
    handleManagedStreams exampleCaller (.managedReq { orgID := 7 }) =
      .ok { channels := [⟨"x/a", 1⟩] } :=
  (claim9_managed_streams_exact exampleCaller { orgID := 7 }).1 _ rfl

/-- C1: for a SubscribeQuery addressed to the node own ID, if the leadership
lookup succeeds but reports no leader or a token different from the one in
the request, the handler fails with the leader-changed rejection and the
channel handler subscribe side effect is never invoked. -/
theorem claim1_fencing_rejects_subscribe (c : Caller) (req : PluginSubscribeStreamRequest)
    (ok : Bool) (nid tok : String)
    (hself : req.leaderNodeID = c.nodeID)
    (hleader : c.getLeader (prependOrgID req.orgID req.channel) = .ok (ok, nid, tok))
    (hfence : ok = false ∨ tok ≠ req.leadershipID) :
    (handlePluginSubscribeStream c (.subscribeReq req)).1 = .error "leader changed" ∧
    ∀ u ev, Effect.onSubscribe u ev ∉ (handlePluginSubscribeStream c (.subscribeReq req)).2 := by
  have hmain : handlePluginSubscribeStream c (.subscribeReq req) =
      (.error "leader changed", [.getLeader (prependOrgID req.orgID req.channel)]) := by
    simp only [handlePluginSubscribeStream, hself, ne_eq, not_true_eq_false, if_false,
      hleader, if_pos hfence]
  rw [hmain]
  exact ⟨rfl, by intro u ev h; simp at h⟩

/-- Witness for C1: stale token token-stale against current token token-1. -/
theorem claim1_fencing_rejects_subscribe_witness :
    (handlePluginSubscribeStream exampleCaller
        (.subscribeReq { orgID := 1, userID := 0, channel := "stream/x/a",
                         leaderNodeID := "node-1", leadershipID := "token-stale" })).1 =
        .error "leader changed" ∧
    ∀ u ev, Effect.onSubscribe u ev ∉
      (handlePluginSubscribeStream exampleCaller
        (.subscribeReq { orgID := 1, userID := 0, channel := "stream/x/a",
                         leaderNodeID := "node-1", leadershipID := "token-stale" })).2 :=
  claim1_fencing_rejects_subscribe exampleCaller _ true "node-1" "token-1"
    rfl rfl (Or.inr (by decide))

/-- The effects of the resolve-and-subscribe tail: the channel handler lookup
for the given user, possibly followed by its subscribe callback for that same
user. -/
theorem resolveAndSubscribe_snd (c : Caller) (req : PluginSubscribeStreamRequest)
    (effs : List Effect) (user : SignedInUser) :
    (resolveAndSubscribe c req effs user).2 =
        effs ++ [Effect.getChannelHandler user req.channel] ∨
    ∃ ev, (resolveAndSubscribe c req effs user).2 =
        effs ++ [Effect.getChannelHandler user req.channel, Effect.onSubscribe user ev] := by
  rcases hch : c.getChannelHandler user req.channel with e | hp
  · exact Or.inl (by simp [resolveAndSubscribe, hch])
  · obtain ⟨handler, parsedChannel⟩ := hp
    rcases hsub : handler.onSubscribe user (subscribeEventOf req parsedChannel) with e | rs
    · exact Or.inr ⟨subscribeEventOf req parsedChannel,
        by simp [resolveAndSubscribe, hch, hsub]⟩
    · obtain ⟨reply, status⟩ := rs
      exact Or.inr ⟨subscribeEventOf req parsedChannel,
        by simp [resolveAndSubscribe, hch, hsub]⟩

/-- C10: for a SubscribeQuery that passes the self-check and the fencing
check, a user ID less than or equal to zero, strictly negative values
included, means the identity lookup is never invoked and the channel handler
is resolved with a synthesized identity carrying only the organization ID. -/
theorem claim10_nonpositive_user_synthesized (c : Caller)
    (req : PluginSubscribeStreamRequest) (nid : String)
    (hself : req.leaderNodeID = c.nodeID)
    (hleader : c.getLeader (prependOrgID req.orgID req.channel) =
      .ok (true, nid, req.leadershipID))
    (huser : req.userID ≤ 0) :
    (∀ uid oid, Effect.getSignedInUser uid oid ∉
      (handlePluginSubscribeStream c (.subscribeReq req)).2) ∧
    Effect.getChannelHandler { orgId := req.orgID, userId := 0 } req.channel ∈
      (handlePluginSubscribeStream c (.subscribeReq req)).2 := by
  have hnotpos : ¬req.userID > 0 := not_lt.mpr huser
  have hmain : handlePluginSubscribeStream c (.subscribeReq req) =
      resolveAndSubscribe c req [.getLeader (prependOrgID req.orgID req.channel)]
        { orgId := req.orgID, userId := 0 } := by
    simp only [handlePluginSubscribeStream, hself, ne_eq, not_true_eq_false, if_false,
      hleader]
    rw [if_neg (by simp), if_neg hnotpos]
  rw [hmain]
  rcases resolveAndSubscribe_snd c req
      [.getLeader (prependOrgID req.orgID req.channel)]
      { orgId := req.orgID, userId := 0 } with h | ⟨ev, h⟩ <;> rw [h] <;>
    refine ⟨fun uid oid hmem => ?_, by simp⟩ <;> simp at hmem

/-- Witness for C10 with a strictly negative user ID. -/
theorem claim10_nonpositive_user_synthesized_witness :
    (∀ uid oid, Effect.getSignedInUser uid oid ∉
      (handlePluginSubscribeStream exampleCaller
        (.subscribeReq { orgID := 5, userID := -3, channel := "stream/x/a",
                         leaderNodeID := "node-1", leadershipID := "token-1" })).2) ∧
    Effect.getChannelHandler { orgId := 5, userId := 0 } "stream/x/a" ∈
      (handlePluginSubscribeStream exampleCaller
        (.subscribeReq { orgID := 5, userID := -3, channel := "stream/x/a",
                         leaderNodeID := "node-1", leadershipID := "token-1" })).2 :=
  claim10_nonpositive_user_synthesized exampleCaller _ "node-1" rfl rfl (by decide)

/-- C6: if the reply map holds a status-0, well-formed reply keyed by the
addressed leader node ID, while every reply has status 0 and node keys are
unique as in a map, the targeted call returns that payload reply and status
unchanged, skipping status-0 replies keyed by other node IDs. -/
theorem claim6_leader_reply_returned (leader : String)
    (replies : List (String × SurveyReply)) (r : SurveyReply)
    (res : PluginSubscribeStreamResponse)
    (hmem : (leader, r) ∈ replies)
    (hdec : decodeSubscribeResp r.data = .ok res)
    (hall : ∀ p ∈ replies, (p.2).code = 0)
    (hnodup : (replies.map Prod.fst).Nodup) :
    callPluginSubscribeStream leader replies = .ok (res.reply, res.status) := by
  induction replies with
  | nil => simp at hmem
  | cons hd rest ih =>
    obtain ⟨n, r'⟩ := hd
    have hcode : r'.code = 0 := hall (n, r') (List.mem_cons_self _ _)
    rw [List.map_cons, List.nodup_cons] at hnodup
    by_cases hn : n = leader
    · subst hn
      have hr : r' = r := by
        rcases List.mem_cons.mp hmem with heq | hrest
        · exact (Prod.ext_iff.mp heq).2.symm
        · exact absurd (List.mem_map_of_mem Prod.fst hrest) hnodup.1
      subst hr
      simp only [callPluginSubscribeStream]
      rw [if_neg (by simp [hcode]), if_neg (by simp), hdec]
    · have hrest : (leader, r) ∈ rest := by
        rcases List.mem_cons.mp hmem with heq | hrest
        · exact absurd (Prod.ext_iff.mp heq).1.symm hn
        · exact hrest
      simp only [callPluginSubscribeStream]
      rw [if_neg (by simp [hcode]), if_pos hn]
      exact ih hrest (fun p hp => hall p (List.mem_cons_of_mem _ hp)) hnodup.2

/-- Concrete status-0 reply carrying a well-formed subscribe response payload,
used by the witnesses. -/
def exampleLeaderReply : SurveyReply :=
  { code := 0, data := some (.subscribeResp { status := 2, reply := { raw := "ok" } }) }

/-- Witness for C6: a single status-0 reply from the leader. -/
theorem claim6_leader_reply_returned_witness :
    callPluginSubscribeStream "node-1" [("node-1", exampleLeaderReply)] =
      .ok ({ raw := "ok" }, 2) :=
  claim6_leader_reply_returned "node-1" _ exampleLeaderReply
    { status := 2, reply := { raw := "ok" } }
    (by simp) rfl (by decide) (by decide)

/-- C7: if every reply has status 0 and none is keyed by the addressed leader
node ID, even when the map is empty, the targeted call fails with the
leader-node-not-responded condition. -/
theorem claim7_no_leader_reply (leader : String)
    (replies : List (String × SurveyReply))
    (hall : ∀ p ∈ replies, (p.2).code = 0)
    (hnol : ∀ p ∈ replies, p.1 ≠ leader) :
    callPluginSubscribeStream leader replies = .error "leader node not responded" := by
  induction replies with
  | nil => rfl
  | cons hd rest ih =>
    obtain ⟨n, r⟩ := hd
    have hcode : r.code = 0 := hall (n, r) (List.mem_cons_self _ _)
    have hn : n ≠ leader := hnol (n, r) (List.mem_cons_self _ _)
    simp only [callPluginSubscribeStream]
    rw [if_neg (by simp [hcode]), if_pos hn]
    exact ih (fun p hp => hall p (List.mem_cons_of_mem _ hp))
      (fun p hp => hnol p (List.mem_cons_of_mem _ hp))

/-- Witness for C7: one status-0 reply from a node other than the leader. -/
theorem claim7_no_leader_reply_witness :
    callPluginSubscribeStream "node-1" [("node-2", exampleLeaderReply)] =
      .error "leader node not responded" :=
  claim7_no_leader_reply "node-1" _ (by decide) (by decide)

/-- Concrete failed reply (non-zero status code) used by the counterexample
and the witnesses. -/
def exampleFailedReply : SurveyReply := { code := 1, data := none }

/-- C5 counterexample: a reply map holding the addressed leader status-0
reply and a non-zero reply from another node. When iteration visits the
leader reply first, the call returns success, so the non-zero reply did not
cause a failure and was silently skipped, contradicting the claim. -/
theorem claim5_counterexample :
    (∃ p ∈ [("node-1", exampleLeaderReply), ("node-2", exampleFailedReply)],
      (p.2).code ≠ 0) ∧
    callPluginSubscribeStream "node-1"
        [("node-1", exampleLeaderReply), ("node-2", exampleFailedReply)] =
      .ok ({ raw := "ok" }, 2) := by
  constructor
  · decide
  · with_unfolding_all rfl

/-- C5 amended: a reply with a non-zero status code causes the targeted call
to fail immediately with the unexpected-survey-code error whenever every
reply iterated before it has status 0 and is keyed by a node other than the
addressed leader; in particular the leader-ID skip never bypasses the status
check. A non-zero reply iterated after the leader status-0 reply is not
examined, because the call already returned. -/
theorem claim5_amended_code_failure (leader : String)
    (pre post : List (String × SurveyReply)) (n : String) (r : SurveyReply)
    (hcode : r.code ≠ 0)
    (hpre : ∀ p ∈ pre, (p.2).code = 0 ∧ p.1 ≠ leader) :
    callPluginSubscribeStream leader (pre ++ (n, r) :: post) =
      .error ("unexpected survey code: " ++ toString r.code) := by
  induction pre with
  | nil =>
    simp only [List.nil_append, callPluginSubscribeStream]
    rw [if_pos hcode]
  | cons hd rest ih =>
    obtain ⟨m, r'⟩ := hd
    have hhd := hpre (m, r') (List.mem_cons_self _ _)
    have h1 : r'.code = 0 := hhd.1
    have h2 : m ≠ leader := hhd.2
    simp only [List.cons_append, callPluginSubscribeStream]
    rw [if_neg (by simp [h1]), if_pos h2]
    exact ih (fun p hp => hpre p (List.mem_cons_of_mem _ hp))

/-- Witness for the amended C5: a status-0 reply from a non-leader node
precedes the failing reply, and the call fails with the code error. -/
theorem claim5_amended_code_failure_witness :
    callPluginSubscribeStream "node-1"
        ([("node-2", exampleLeaderReply)] ++ ("node-3", exampleFailedReply) :: []) =
      .error ("unexpected survey code: " ++ toString exampleFailedReply.code) :=
  claim5_amended_code_failure "node-1" [("node-2", exampleLeaderReply)] []
    "node-3" exampleFailedReply (by decide) (by decide)

/-- A reply with a non-zero status code makes the merge loop of the
broadcast aggregation call abort with an error, whatever the accumulator. -/
theorem collectChannels_code_error (replies : List SurveyReply)
    (h : ∃ r ∈ replies, r.code ≠ 0) :
    ∀ acc, ∃ e, collectChannels replies acc = .error e := by
  induction replies with
  | nil => simp at h
  | cons hd rest ih =>
    intro acc
    by_cases hcode : hd.code ≠ 0
    · exact ⟨_, by simp only [collectChannels]; rw [if_pos hcode]⟩
    · have hrest : ∃ r ∈ rest, r.code ≠ 0 := by
        rcases h with ⟨r, hr, hrc⟩
        rcases List.mem_cons.mp hr with heq | hmem
        · exact absurd (heq ▸ hrc) hcode
        · exact ⟨r, hmem, hrc⟩
      rcases hdec : decodeManagedResp hd.data with e | res
      · exact ⟨e, by simp only [collectChannels]; rw [if_neg hcode, hdec]⟩
      · obtain ⟨e, he⟩ := ih hrest (res.channels.foldl addChannel acc)
        exact ⟨e, by simp only [collectChannels]; rw [if_neg hcode, hdec]; exact he⟩

/-- C4: if any per-node reply of the broadcast aggregation call carries a
non-zero status code, the whole call fails and returns no channels at all,
regardless of the other replies. -/
theorem claim4_broadcast_fails_whole (replies : List SurveyReply)
    (h : ∃ r ∈ replies, r.code ≠ 0) :
    ∃ e, callManagedStreams replies = .error e := by
  obtain ⟨e, he⟩ := collectChannels_code_error replies h []
  exact ⟨e, by simp only [callManagedStreams]; rw [he]⟩

/-- Witness for C4: one good reply followed by one failed reply. -/
theorem claim4_broadcast_fails_whole_witness :
    ∃ e, callManagedStreams
        [{ code := 0, data := some (.managedResp { channels := [⟨"x/a", 1⟩] }) },
          exampleFailedReply] = .error e :=
  claim4_broadcast_fails_whole _ ⟨exampleFailedReply, by simp [exampleFailedReply],
    by simp [exampleFailedReply]⟩

/-- Every member of an insertion step is the inserted entry or an entry of
the original list. -/
theorem mem_insertByChannel {x ch : ManagedChannel} {l : List ManagedChannel}
    (h : x ∈ insertByChannel ch l) : x = ch ∨ x ∈ l := by
  induction l with
  | nil => simpa [insertByChannel] using h
  | cons e rest ih =>
    by_cases hlt : ch.channel < e.channel
    · rw [insertByChannel, if_pos hlt] at h
      rcases List.mem_cons.mp h with h | h
      · exact Or.inl h
      · exact Or.inr h
    · rw [insertByChannel, if_neg hlt] at h
      rcases List.mem_cons.mp h with h | h
      · exact Or.inr (h ▸ List.mem_cons_self _ _)
      · rcases ih h with h | h
        · exact Or.inl h
        · exact Or.inr (List.mem_cons_of_mem _ h)

/-- Inserting into a list sorted by channel name keeps it sorted. -/
theorem insertByChannel_sorted {ch : ManagedChannel} {l : List ManagedChannel}
    (h : l.Pairwise fun a b => a.channel ≤ b.channel) :
    (insertByChannel ch l).Pairwise (fun a b => a.channel ≤ b.channel) := by
  induction l with
  | nil => simp [insertByChannel]
  | cons e rest ih =>
    rcases List.pairwise_cons.mp h with ⟨he, hrest⟩
    by_cases hlt : ch.channel < e.channel
    · rw [insertByChannel, if_pos hlt]
      refine List.pairwise_cons.mpr ⟨?_, h⟩
      intro x hx
      rcases List.mem_cons.mp hx with hx | hx
      · exact hx ▸ le_of_lt hlt
      · exact le_trans (le_of_lt hlt) (he x hx)
    · rw [insertByChannel, if_neg hlt]
      refine List.pairwise_cons.mpr ⟨?_, ih hrest⟩
      intro x hx
      rcases mem_insertByChannel hx with hx | hx
      · exact hx ▸ le_of_not_lt hlt
      · exact he x hx

/-- The final sort of the broadcast aggregation yields a list sorted by
channel name. -/
theorem sortByChannel_sorted (l : List ManagedChannel) :
    (sortByChannel l).Pairwise (fun a b => a.channel ≤ b.channel) := by
  induction l with
  | nil => simp [sortByChannel]
  | cons e rest ih => exact insertByChannel_sorted ih

/-- The four per-node answers of the aggregation scenario: node A knows
channel x/a at rate 1, node B knows x/a at rate 2 and x/b at rate 5, and two
further nodes each report plugin/testdata/foo at rate 100. -/
def exampleReplies : List SurveyReply :=
  [ { code := 0, data := some (.managedResp { channels := [⟨"x/a", 1⟩] }) },
    { code := 0, data := some (.managedResp { channels := [⟨"x/a", 2⟩, ⟨"x/b", 5⟩] }) },
    { code := 0, data := some (.managedResp { channels := [⟨"plugin/testdata/foo", 100⟩] }) },
    { code := 0, data := some (.managedResp { channels := [⟨"plugin/testdata/foo", 100⟩] }) } ]

/-- The merged aggregation result of the scenario: the testdata channel
duplicate is dropped, the x/a rates are summed, and the list is sorted by
channel name. -/
def exampleMerged : List ManagedChannel :=
  [⟨"plugin/testdata/foo", 100⟩, ⟨"x/a", 3⟩, ⟨"x/b", 5⟩]

/-- C3: the broadcast merge inserts first occurrences as-is, sums the rate of
later occurrences into the existing entry, drops later occurrences under the
plugin/testdata/ namespace, and returns the entries sorted by channel name:
the four-node scenario merges to the expected list, and every successful
aggregation result is sorted lexicographically by channel name. -/
theorem claim3_broadcast_merge :
    callManagedStreams exampleReplies = .ok exampleMerged ∧
    ∀ replies out, callManagedStreams replies = .ok out →
      out.Pairwise (fun a b => a.channel ≤ b.channel) := by
  constructor
  · with_unfolding_all rfl
  · intro replies out h
    rcases hc : collectChannels replies [] with e | chans
    · rw [callManagedStreams, hc] at h
      cases h
    · rw [callManagedStreams, hc] at h
      cases h
      exact sortByChannel_sorted chans

/-- Witness for C3: the merged scenario result is sorted by channel name. -/
theorem claim3_broadcast_merge_witness :
    exampleMerged.Pairwise (fun a b => a.channel ≤ b.channel) :=
  claim3_broadcast_merge.2 exampleReplies exampleMerged claim3_broadcast_merge.1

/-- C8: the dispatcher produces a code-1 reply with empty payload for an
unrecognized operation name, for a payload that fails to decode, and for any
handler error, never exposing the error text; only on handler success does
it produce a code-0 reply carrying the encoded result. -/
theorem claim8_dispatcher (c : Caller) (op : String) (data : Payload) :
    (op ≠ managedStreamsCall → op ≠ pluginSubscribeStream →
      handleSurvey c op data = { code := 1, data := none }) ∧
    (∀ e, handleManagedStreams c data = .error e → op = managedStreamsCall →
      handleSurvey c op data = { code := 1, data := none }) ∧
    (∀ resp, handleManagedStreams c data = .ok resp → op = managedStreamsCall →
      handleSurvey c op data = { code := 0, data := some (.managedResp resp) }) ∧
    (∀ e, (handlePluginSubscribeStream c data).1 = .error e → op = pluginSubscribeStream →
      handleSurvey c op data = { code := 1, data := none }) ∧
    (∀ resp, (handlePluginSubscribeStream c data).1 = .ok resp → op = pluginSubscribeStream →
      handleSurvey c op data = { code := 0, data := some (.subscribeResp resp) }) ∧
    (data = .malformed → op = managedStreamsCall ∨ op = pluginSubscribeStream →
      handleSurvey c op data = { code := 1, data := none }) ∧
    ((handleSurvey c op data).code ≠ 0 →
      handleSurvey c op data = { code := 1, data := none }) := by
  have hops : pluginSubscribeStream ≠ managedStreamsCall := by decide
  refine ⟨?_, ?_, ?_, ?_, ?_, ?_, ?_⟩
  · intro h1 h2
    simp [handleSurvey, surveyResult, h1, h2]
  · intro e he hop
    subst hop
    simp [handleSurvey, surveyResult, he]
  · intro resp hr hop
    subst hop
    simp [handleSurvey, surveyResult, hr]
  · intro e he hop
    subst hop
    rcases hp : handlePluginSubscribeStream c data with ⟨pres, peffs⟩
    rw [hp] at he
    simp only at he
    simp [handleSurvey, surveyResult, hops, hp, he]
  · intro resp hr hop
    subst hop
    rcases hp : handlePluginSubscribeStream c data with ⟨pres, peffs⟩
    rw [hp] at hr
    simp only at hr
    simp [handleSurvey, surveyResult, hops, hp, hr]
  · intro hd hop
    subst hd
    rcases hop with hop | hop <;> subst hop
    · simp [handleSurvey, surveyResult, handleManagedStreams]
    · simp [handleSurvey, surveyResult, handlePluginSubscribeStream, hops]
  · intro hcode
    rcases hs : surveyResult c op data with e | p
    · simp [handleSurvey, hs]
    · exact absurd (by simp [handleSurvey, hs]) hcode

/-- Witness for C8 at an unrecognized operation name. -/
theorem claim8_dispatcher_witness :
    handleSurvey exampleCaller "unknown_call" .malformed = { code := 1, data := none } :=
  (claim8_dispatcher exampleCaller "unknown_call" .malformed).1 (by decide) (by decide)

end Survey
